import Mathlib

/-!
Shallow embedding of the tagtog demo webhook application (src/app.py).

The application is a Flask webhook. On a POST trigger carrying a
document id it fetches the plain HTML of the document from the tagtog
API, runs a spaCy NER pipeline over each identified HTML part, converts
the recognized spans into tagtog ann.json entities, and uploads the
result. We model:

  - Python dicts of strings as association lists (`Dict`) with
    insertion-order, replace-on-assign semantics (`dictSet`) and
    first-match lookup (`dictGet`, matching `dict.get`);
  - spaCy spans (`Span`), HTML parts (`Segment`), ann.json entities
    (`Annotation`) and the ann.json bundle (`AnnJson`) as structures;
  - the external world (HTTP GET of the document, BeautifulSoup body
    parsing, the spaCy model, HTTP POST of the import) as an
    environment of pure functions (`Env`); `Env.parse` returns `none`
    when the fetched content has no body element, in which case
    `soup.body.find_all` raises AttributeError and the request dies
    with an unhandled exception (modeled as `response = none`);
  - the request handler `respond` as a pure function from the module
    state, the environment and the decoded `tagtogID` field to a
    result recording the HTTP response, the outbound calls made, and
    the module state after the request.
-/

set_option autoImplicit false

/-- A Python string-to-string dict, as an association list in insertion
order. -/
abbrev Dict := List (String × String)

/-- `d.get(k)`: first binding wins (keys are unique in a real dict). -/
def dictGet (d : Dict) (k : String) : Option String :=
  (d.find? (fun p => p.1 = k)).map (fun p => p.2)

/-- `d[k] = v`: replace the existing binding in place, else append. -/
def dictSet (d : Dict) (k v : String) : Dict :=
  if d.any (fun p => p.1 = k) then
    d.map (fun p => if p.1 = k then (k, v) else p)
  else
    d ++ [(k, v)]

/-- A spaCy named-entity span (the fields of `Span` read by app.py). -/
structure Span where
  label_ : String
  start_char : Nat
  text : String
deriving DecidableEq, Repr

/-- One entry of the `offsets` list of a tagtog entity. -/
structure TOffset where
  start : Nat
  text : String
deriving DecidableEq, Repr

/-- The `confidence` object of a tagtog entity. -/
structure Confidence where
  state : String
  who : List String
  prob : Nat
deriving DecidableEq, Repr

/-- A tagtog ann.json entity, as built by `get_entities` in app.py. -/
structure Annotation where
  classId : String
  part : String
  offsets : List TOffset
  confidence : Confidence
  fields : Dict
  normalizations : Dict
deriving DecidableEq, Repr

/-- An identified part of the plain HTML document: the id attribute of
the element and its flattened text content. -/
structure Segment where
  id : String
  text : String
deriving DecidableEq, Repr

/-- The ann.json bundle assembled by `respond` in app.py. The code only
ever stores `[]` in `relations`, so the element type is irrelevant. -/
structure AnnJson where
  anncomplete : Bool
  metas : Dict
  relations : List Unit
  entities : List Annotation
deriving DecidableEq, Repr

/-- `pipeline = 'en_core_web_sm'` (app.py line 61). -/
def pipeline : String := "en_core_web_sm"

/-- `get_class_id(label)` (app.py lines 54-56): look the spaCy label up
in the inverted legend `map_names_to_ids`; `None` when absent. -/
def get_class_id (map_names_to_ids : Dict) (label : String) : Option String :=
  dictGet map_names_to_ids label

/-- `map_names_to_ids` (app.py line 52): invert the id-to-name legend
fetched from the tagtog settings API. -/
def invert_legend (map_ids_to_names : Dict) : Dict :=
  map_ids_to_names.map (fun p => (p.2, p.1))

/-- `get_entities(spans, pipeline, partId)` (app.py lines 71-98): for
each span whose label has a class id, append a tagtog entity with that
classId, the part id, a single offset entry, the fixed confidence
object, empty fields and empty normalizations. -/
def get_entities (map_names_to_ids : Dict) (spans : List Span)
    (pipeline : String) (partId : String) : List Annotation :=
  spans.foldl (fun tagtog_entities span =>
    match get_class_id map_names_to_ids span.label_ with
    | some class_id =>
        tagtog_entities ++
          [{ classId := class_id,
             part := partId,
             offsets := [{ start := span.start_char, text := span.text }],
             confidence :=
               { state := "pre-added", who := ["ml:" ++ pipeline], prob := 1 },
             fields := [],
             normalizations := [] }]
    | none => tagtog_entities) []

/-- The entity `get_entities` builds for one span, when the label
resolves: a functional view of the loop body of app.py lines 82-96. -/
def spanToEntity (map_names_to_ids : Dict) (pipeline : String)
    (partId : String) (span : Span) : Option Annotation :=
  (get_class_id map_names_to_ids span.label_).map (fun class_id =>
    { classId := class_id,
      part := partId,
      offsets := [{ start := span.start_char, text := span.text }],
      confidence :=
        { state := "pre-added", who := ["ml:" ++ pipeline], prob := 1 },
      fields := [],
      normalizations := [] })

/-- The entity-accumulation loop of `respond` (app.py lines 145-153):
for each part, run the model on its text and extend the entities list
with the translated entities of that part. -/
def assemble_entities (map_names_to_ids : Dict) (nlp : String → List Span)
    (parts : List Segment) : List Annotation :=
  parts.foldl (fun acc part =>
    acc ++ get_entities map_names_to_ids (nlp part.text) pipeline part.id) []

/-- The module-level mutable values of app.py that a request can read
or write: the inverted legend (line 52) and the two request-parameter
dicts (lines 34 and 37). -/
structure ModuleState where
  map_names_to_ids : Dict
  get_params_doc : Dict
  post_params_doc : Dict
deriving DecidableEq, Repr

/-- The external world, as pure functions: `fetch` is the GET of the
document (status code and raw body, app.py line 133); `parse` is
BeautifulSoup plus `body.find_all(_has_part_id)` (lines 111-115),
`none` when the content has no body element (then `soup.body` is
`None` and the attribute access raises); `nlp` is the spaCy model
(line 150); `submit` is the import POST (status code and response
text, line 158). -/
structure Env where
  fetch : String → Nat × String
  parse : String → Option (List Segment)
  nlp : String → List Span
  submit : String → Nat × String

/-- An outbound HTTP call made while handling a request. -/
inductive Call where
  | getDoc (docid : String) (params : Dict)
  | postDoc (docid : String) (doc_plain_html : String) (annjson : AnnJson)
deriving DecidableEq, Repr

/-- Result of one POST trigger request: `response = some ()` is the
empty `Response()` of app.py line 161, `none` an unhandled exception;
`calls` the outbound calls in order; `state` the module state after
the request. -/
structure RespondResult where
  response : Option Unit
  calls : List Call
  state : ModuleState
deriving DecidableEq, Repr

/-- `respond()` (app.py lines 124-161). `tagtogID` is
`request.json.get('tagtogID')`: `none` when the field is absent or
JSON null, `some s` when it is the string `s`; the Python truthiness
test `if docid:` holds exactly when the string is nonempty. When
truthy, the handler writes the id into the module-level
`get_params_doc`, GETs the document, parses its body into parts,
assembles the ann.json, POSTs the import, ignores the import response
apart from printing it, and returns the empty response. The fetch
status code is bound but never inspected. -/
def respond (env : Env) (st : ModuleState) (tagtogID : Option String) :
    RespondResult :=
  match tagtogID with
  | some docid =>
    if docid = "" then
      { response := some (), calls := [], state := st }
    else
      let st1 : ModuleState :=
        { st with get_params_doc := dictSet st.get_params_doc "ids" docid }
      let fetched := env.fetch docid
      let doc_plain_html := fetched.2
      let getCall := Call.getDoc docid st1.get_params_doc
      match env.parse doc_plain_html with
      | none => { response := none, calls := [getCall], state := st1 }
      | some parts =>
        let annjson : AnnJson :=
          { anncomplete := false,
            metas := [],
            relations := [],
            entities := assemble_entities st1.map_names_to_ids env.nlp parts }
        let _post_response := env.submit docid
        { response := some (),
          calls := [getCall, Call.postDoc docid doc_plain_html annjson],
          state := st1 }
  | none => { response := some (), calls := [], state := st }

/-- The substring of `s` of length `len` starting at character index
`start` (character offsets, as spaCy start_char and tagtog offsets
use). -/
def substrAt (s : String) (start len : Nat) : String :=
  String.mk ((s.data.drop start).take len)

/-! ## Concrete scenario data (spec section 8, scenario B) -/

/-- A module state with the example legend of app.py line 48 inverted,
and the startup values of the two parameter dicts (lines 30-37). -/
def st0 : ModuleState :=
  { map_names_to_ids := [("PERSON", "e_1"), ("ORG", "e_2"), ("MONEY", "e_3")],
    get_params_doc := [("owner", "me"), ("project", "proj"), ("output", "plain.html")],
    post_params_doc := [("owner", "me"), ("project", "proj"), ("output", "null"), ("format", "anndoc")] }

/-- The segment text of scenario B. -/
def textB : String := "Alice works at Acme for $500."

/-- The recognizer output of scenario B. -/
def spansB : List Span :=
  [{ label_ := "PERSON", start_char := 0, text := "Alice" },
   { label_ := "ORG", start_char := 15, text := "Acme" },
   { label_ := "MONEY", start_char := 24, text := "$500" }]

/-- Scenario B environment: one part s1 carrying `textB`. -/
def envB : Env :=
  { fetch := fun _ => (200, "HTMLB"),
    parse := fun _ => some [{ id := "s1", text := textB }],
    nlp := fun t => if t = textB then spansB else [],
    submit := fun _ => (200, "ok") }

/-- The entity that scenario B produces for the PERSON span. -/
def annAlice : Annotation :=
  { classId := "e_1",
    part := "s1",
    offsets := [{ start := 0, text := "Alice" }],
    confidence :=
      { state := "pre-added", who := ["ml:en_core_web_sm"], prob := 1 },
    fields := [],
    normalizations := [] }

/-- An environment where the document fetch returns HTTP 404 yet the
error body still parses into one part (for instance an HTML error page
whose body contains an element with an id attribute). -/
def envC2 : Env :=
  { fetch := fun _ => (404, "ERRBODY"),
    parse := fun _ => some [{ id := "s1", text := "Not found" }],
    nlp := fun _ => [],
    submit := fun _ => (200, "ok") }

/-- An environment where the fetched content has no body element, so
parsing fails and the request dies before the import POST. -/
def envNoBody : Env :=
  { fetch := fun _ => (404, "plain error text"),
    parse := fun _ => none,
    nlp := fun _ => [],
    submit := fun _ => (200, "ok") }

/-- The ann.json bundle that scenario B posts. -/
def annB : AnnJson :=
  { anncomplete := false,
    metas := [],
    relations := [],
    entities :=
      [annAlice,
       { classId := "e_2",
         part := "s1",
         offsets := [{ start := 15, text := "Acme" }],
         confidence :=
           { state := "pre-added", who := ["ml:en_core_web_sm"], prob := 1 },
         fields := [],
         normalizations := [] },
       { classId := "e_3",
         part := "s1",
         offsets := [{ start := 24, text := "$500" }],
         confidence :=
           { state := "pre-added", who := ["ml:en_core_web_sm"], prob := 1 },
         fields := [],
         normalizations := [] }] }

/-- Scenario D environment: two parts, each with one recognized
span. -/
def envD : Env :=
  { fetch := fun _ => (200, "HTMLD"),
    parse := fun _ =>
      some [{ id := "s1", text := "Alice" }, { id := "s2", text := "Acme" }],
    nlp := fun t =>
      if t = "Alice" then [{ label_ := "PERSON", start_char := 0, text := "Alice" }]
      else if t = "Acme" then [{ label_ := "ORG", start_char := 0, text := "Acme" }]
      else [],
    submit := fun _ => (200, "ok") }

/-! ## Helper lemmas -/

/-- The accumulating loop of `get_entities`, for any initial list. -/
theorem get_entities_go (m : Dict) (p pid : String) (spans : List Span)
    (acc : List Annotation) :
    spans.foldl (fun tagtog_entities span =>
      match get_class_id m span.label_ with
      | some class_id =>
          tagtog_entities ++
            [{ classId := class_id,
               part := pid,
               offsets := [{ start := span.start_char, text := span.text }],
               confidence :=
                 { state := "pre-added", who := ["ml:" ++ p], prob := 1 },
               fields := [],
               normalizations := [] }]
      | none => tagtog_entities) acc
    = acc ++ spans.filterMap (spanToEntity m p pid) := by
  induction spans generalizing acc with
  | nil => simp
  | cons sp spans ih =>
    rw [List.foldl_cons, List.filterMap_cons]
    cases hc : get_class_id m sp.label_ with
    | none =>
      simp only [hc]
      rw [ih]
      simp [spanToEntity, hc]
    | some cid =>
      simp only [hc]
      rw [ih]
      simp [spanToEntity, hc, List.append_assoc]

/-- `get_entities` is the filterMap of the per-span translation. -/
theorem get_entities_eq_filterMap (m : Dict) (spans : List Span)
    (p pid : String) :
    get_entities m spans p pid = spans.filterMap (spanToEntity m p pid) := by
  rw [get_entities]
  exact get_entities_go m p pid spans []

/-- A value returned by `dictGet` is among the dict values. -/
theorem dictGet_mem_values (d : Dict) (k v : String)
    (h : dictGet d k = some v) : v ∈ d.map Prod.snd := by
  unfold dictGet at h
  cases hf : d.find? (fun p => p.1 = k) with
  | none => rw [hf] at h; simp at h
  | some p =>
    rw [hf] at h
    simp only [Option.map_some'] at h
    cases h
    exact List.mem_map_of_mem Prod.snd (List.mem_of_find?_eq_some hf)

/-- Every member of `get_entities` comes from a span whose label
resolves, and has exactly the record shape built in app.py lines
85-96. -/
theorem mem_get_entities_shape (m : Dict) (spans : List Span)
    (p pid : String) (a : Annotation) (ha : a ∈ get_entities m spans p pid) :
    ∃ sp, sp ∈ spans ∧ ∃ cid, get_class_id m sp.label_ = some cid ∧
      a = { classId := cid,
            part := pid,
            offsets := [{ start := sp.start_char, text := sp.text }],
            confidence :=
              { state := "pre-added", who := ["ml:" ++ p], prob := 1 },
            fields := [],
            normalizations := [] } := by
  rw [get_entities_eq_filterMap] at ha
  obtain ⟨sp, hsp, hmap⟩ := List.mem_filterMap.mp ha
  refine ⟨sp, hsp, ?_⟩
  unfold spanToEntity at hmap
  cases hc : get_class_id m sp.label_ with
  | none => rw [hc] at hmap; simp at hmap
  | some cid =>
    rw [hc] at hmap
    simp only [Option.map_some', Option.some.injEq] at hmap
    exact ⟨cid, rfl, hmap.symm⟩

/-- The accumulating loop of `assemble_entities`, for any initial
list. -/
theorem assemble_entities_go (m : Dict) (nlp : String → List Span)
    (parts : List Segment) (acc : List Annotation) :
    parts.foldl (fun acc part =>
      acc ++ get_entities m (nlp part.text) pipeline part.id) acc
    = acc ++ (parts.map (fun part =>
        get_entities m (nlp part.text) pipeline part.id)).flatten := by
  induction parts generalizing acc with
  | nil => simp
  | cons part parts ih =>
    rw [List.foldl_cons, List.map_cons, List.flatten_cons, ih, List.append_assoc]

/-- `assemble_entities` concatenates the per-part entity lists in part
order. -/
theorem assemble_entities_eq_join (m : Dict) (nlp : String → List Span)
    (parts : List Segment) :
    assemble_entities m nlp parts
    = (parts.map (fun part =>
        get_entities m (nlp part.text) pipeline part.id)).flatten := by
  rw [assemble_entities]
  exact assemble_entities_go m nlp parts []

/-- Every member of `assemble_entities` comes from one of the parts. -/
theorem mem_assemble_entities (m : Dict) (nlp : String → List Span)
    (parts : List Segment) (a : Annotation)
    (ha : a ∈ assemble_entities m nlp parts) :
    ∃ seg, seg ∈ parts ∧ a ∈ get_entities m (nlp seg.text) pipeline seg.id := by
  rw [assemble_entities_eq_join] at ha
  obtain ⟨l, hl, hal⟩ := List.mem_flatten.mp ha
  obtain ⟨seg, hseg, rfl⟩ := List.mem_map.mp hl
  exact ⟨seg, hseg, hal⟩

/-- The constant fields of every entity built by `get_entities`. -/
theorem mem_get_entities_constants (m : Dict) (spans : List Span)
    (p pid : String) (a : Annotation) (ha : a ∈ get_entities m spans p pid) :
    a.part = pid ∧ a.fields = [] ∧ a.normalizations = []
    ∧ a.confidence = { state := "pre-added", who := ["ml:" ++ p], prob := 1 }
    ∧ a.offsets.length = 1 := by
  obtain ⟨sp, _, cid, _, rfl⟩ := mem_get_entities_shape m spans p pid a ha
  exact ⟨rfl, rfl, rfl, rfl, rfl⟩

/-- `respond` on a truthy document id whose fetched content does not
parse: the request dies after the GET, before any POST. -/
theorem respond_parse_none (env : Env) (st : ModuleState) (docid : String)
    (hd : ¬ docid = "") (hp : env.parse (env.fetch docid).2 = none) :
    respond env st (some docid)
    = { response := none,
        calls := [Call.getDoc docid (dictSet st.get_params_doc "ids" docid)],
        state :=
          { st with get_params_doc := dictSet st.get_params_doc "ids" docid } } := by
  simp only [respond, if_neg hd, hp]

/-- `respond` on a truthy document id whose fetched content parses:
GET then POST of the assembled ann.json, and the empty response. -/
theorem respond_parse_some (env : Env) (st : ModuleState) (docid : String)
    (parts : List Segment) (hd : ¬ docid = "")
    (hp : env.parse (env.fetch docid).2 = some parts) :
    respond env st (some docid)
    = { response := some (),
        calls := [Call.getDoc docid (dictSet st.get_params_doc "ids" docid),
                  Call.postDoc docid (env.fetch docid).2
                    { anncomplete := false,
                      metas := [],
                      relations := [],
                      entities :=
                        assemble_entities st.map_names_to_ids env.nlp parts }],
        state :=
          { st with get_params_doc := dictSet st.get_params_doc "ids" docid } } := by
  simp only [respond, if_neg hd, hp]

/-- If an import POST appears among the calls of a request, then the
id was truthy, the fetched body parsed, the posted ann.json is the
assembled one, and the response is the empty success response. -/
theorem postDoc_mem_calls (env : Env) (st : ModuleState) (tid : Option String)
    (docid doc_html : String) (ann : AnnJson)
    (h : Call.postDoc docid doc_html ann ∈ (respond env st tid).calls) :
    (respond env st tid).response = some ()
    ∧ ∃ d parts, tid = some d ∧ ¬ d = ""
        ∧ env.parse (env.fetch d).2 = some parts
        ∧ docid = d ∧ doc_html = (env.fetch d).2
        ∧ ann = { anncomplete := false,
                  metas := [],
                  relations := [],
                  entities :=
                    assemble_entities st.map_names_to_ids env.nlp parts } := by
  cases tid with
  | none => simp [respond] at h
  | some d =>
    by_cases hd : d = ""
    · subst hd; simp [respond] at h
    · cases hp : env.parse (env.fetch d).2 with
      | none =>
        rw [respond_parse_none env st d hd hp] at h
        simp at h
      | some parts =>
        rw [respond_parse_some env st d parts hd hp] at h
        rw [respond_parse_some env st d parts hd hp]
        simp only [List.mem_cons, List.not_mem_nil, or_false] at h
        rcases h with h | h
        · exact absurd h (by simp)
        · obtain ⟨h1, h2, h3⟩ := Call.postDoc.inj h
          exact ⟨rfl, d, parts, rfl, hd, hp, h1, h2, h3⟩

/-! ## Claim theorems -/

/-- Claim C1: for every recognized span processed by `get_entities`,
an Annotation is emitted if and only if the label resolves via
`get_class_id` (the output is exactly the filterMap of the per-span
translation, whose classId is the mapped id); hence every emitted
classId is among the values of the category map, and the number of
emitted Annotations is at most the number of input spans. -/
theorem C1_entities_emitted_iff_resolved (m : Dict) (spans : List Span)
    (p pid : String) :
    get_entities m spans p pid = spans.filterMap (spanToEntity m p pid)
    ∧ (∀ a, a ∈ get_entities m spans p pid → a.classId ∈ m.map Prod.snd)
    ∧ (get_entities m spans p pid).length ≤ spans.length := by
  refine ⟨get_entities_eq_filterMap m spans p pid, ?_, ?_⟩
  · intro a ha
    obtain ⟨sp, _, cid, hc, rfl⟩ := mem_get_entities_shape m spans p pid a ha
    exact dictGet_mem_values m sp.label_ cid hc
  · rw [get_entities_eq_filterMap]
    exact List.length_filterMap_le _ _

/-- Witness for C1 at scenario B: the PERSON entity is emitted and its
classId e_1 is among the mapped values. -/
theorem C1_witness :
    annAlice.classId ∈ st0.map_names_to_ids.map Prod.snd :=
  (C1_entities_emitted_iff_resolved st0.map_names_to_ids spansB pipeline
    "s1").2.1 annAlice (by decide)

/-- Claim C6: every Annotation built by `get_entities` for a part
carries that part id, and every Annotation in the assembled document
entities comes from some part of the document and carries exactly that
part id: no cross-segment bleed. -/
theorem C6_part_is_segment_id (m : Dict) (nlp : String → List Span)
    (parts : List Segment) (spans : List Span) (p pid : String) :
    (∀ a, a ∈ get_entities m spans p pid → a.part = pid)
    ∧ (∀ a, a ∈ assemble_entities m nlp parts →
        ∃ seg, seg ∈ parts ∧ a.part = seg.id
          ∧ a ∈ get_entities m (nlp seg.text) pipeline seg.id) := by
  constructor
  · intro a ha
    exact (mem_get_entities_constants m spans p pid a ha).1
  · intro a ha
    obtain ⟨seg, hseg, ha2⟩ := mem_assemble_entities m nlp parts a ha
    exact ⟨seg, hseg,
      (mem_get_entities_constants m _ pipeline seg.id a ha2).1, ha2⟩

/-- Witness for C6 at scenario B: the PERSON entity carries part id
s1. -/
theorem C6_witness : annAlice.part = "s1" :=
  (C6_part_is_segment_id st0.map_names_to_ids envB.nlp
    [{ id := "s1", text := textB }] spansB pipeline "s1").1 annAlice (by decide)

/-- Claim C7: every emitted Annotation has exactly one offsets entry,
and when every recognized span satisfies the spaCy offset contract
(modelled from the spec: `start_char` is the character offset of the
span text inside the supplied segment text), the entry text equals
the substring of the segment text at the entry start offset. -/
theorem C7_offsets_round_trip (m : Dict) (segText p pid : String)
    (spans : List Span)
    (hwf : ∀ sp, sp ∈ spans →
      sp.text = substrAt segText sp.start_char sp.text.length)
    (a : Annotation) (ha : a ∈ get_entities m spans p pid) :
    a.offsets.length = 1
    ∧ ∀ off, off ∈ a.offsets →
        off.text = substrAt segText off.start off.text.length := by
  obtain ⟨sp, hsp, cid, _, rfl⟩ := mem_get_entities_shape m spans p pid a ha
  refine ⟨rfl, ?_⟩
  intro off hoff
  simp only [List.mem_singleton] at hoff
  subst hoff
  exact hwf sp hsp

/-- Witness for C7 at scenario B: the PERSON entity has one offset
entry, and the entry text Alice is the substring of the segment text
at offset 0. -/
theorem C7_witness :
    annAlice.offsets.length = 1
    ∧ ∀ off, off ∈ annAlice.offsets →
        off.text = substrAt textB off.start off.text.length :=
  C7_offsets_round_trip st0.map_names_to_ids textB pipeline "s1" spansB
    (by decide) annAlice (by decide)

/-- Claim C2 counterexample: a request whose document fetch returns
HTTP 404 but whose error body still parses into a part does NOT abort:
the import POST is still performed. The handler never inspects the
fetch status code. -/
theorem C2_counterexample :
    ¬ (200 ≤ (envC2.fetch "doc-1").1 ∧ (envC2.fetch "doc-1").1 < 300)
    ∧ Call.postDoc "doc-1" "ERRBODY"
        { anncomplete := false, metas := [], relations := [], entities := [] }
        ∈ (respond envC2 st0 (some "doc-1")).calls := by decide

/-- Claim C2 (amended): the fetch status code is never inspected; the
outbound calls of a request with a truthy id are a function of the
fetched body alone. The pipeline aborts after the GET and before any
POST exactly when the fetched content yields no body element to
parse; whenever the content parses, the import POST is attempted,
whatever the fetch status was. -/
theorem C2_amended_fetch_status_ignored (env : Env) (st : ModuleState)
    (docid : String) (hd : ¬ docid = "") :
    (respond env st (some docid)).calls
      = match env.parse (env.fetch docid).2 with
        | none => [Call.getDoc docid (dictSet st.get_params_doc "ids" docid)]
        | some parts =>
            [Call.getDoc docid (dictSet st.get_params_doc "ids" docid),
             Call.postDoc docid (env.fetch docid).2
               { anncomplete := false,
                 metas := [],
                 relations := [],
                 entities :=
                   assemble_entities st.map_names_to_ids env.nlp parts }] := by
  cases hp : env.parse (env.fetch docid).2 with
  | none => rw [respond_parse_none env st docid hd hp]
  | some parts => rw [respond_parse_some env st docid parts hd hp]

/-- Witness for the amended C2, at the environment where the fetched
content has no body element: the only outbound call is the GET. -/
theorem C2_amended_witness :
    (respond envNoBody st0 (some "doc-1")).calls
      = match envNoBody.parse (envNoBody.fetch "doc-1").2 with
        | none => [Call.getDoc "doc-1" (dictSet st0.get_params_doc "ids" "doc-1")]
        | some parts =>
            [Call.getDoc "doc-1" (dictSet st0.get_params_doc "ids" "doc-1"),
             Call.postDoc "doc-1" (envNoBody.fetch "doc-1").2
               { anncomplete := false,
                 metas := [],
                 relations := [],
                 entities :=
                   assemble_entities st0.map_names_to_ids envNoBody.nlp parts }] :=
  C2_amended_fetch_status_ignored envNoBody st0 "doc-1" (by decide)

/-- Claim C3 counterexample: handling a trigger request with a
document id mutates module-level state: afterwards the request
parameter dict `get_params_doc` differs from its value before the
request (it gained the ids entry). -/
theorem C3_counterexample :
    (respond envB st0 (some "doc-1")).state.get_params_doc
      ≠ st0.get_params_doc := by decide

/-- Claim C3 (amended): the category map and the import parameter
dict are never mutated by a request, but the fetch parameter dict
`get_params_doc` IS mutated whenever the id is truthy: its ids entry
is set to the request document id and survives the request, so one
module-level dict is mutable state shared across requests. Requests
without a truthy id leave all module state unchanged. -/
theorem C3_amended_get_params_mutated (env : Env) (st : ModuleState)
    (docid : String) :
    (respond env st (some docid)).state.map_names_to_ids = st.map_names_to_ids
    ∧ (respond env st (some docid)).state.post_params_doc = st.post_params_doc
    ∧ (¬ docid = "" →
        (respond env st (some docid)).state.get_params_doc
          = dictSet st.get_params_doc "ids" docid)
    ∧ (respond env st none).state = st
    ∧ (respond env st (some "")).state = st := by
  by_cases hd : docid = ""
  · subst hd
    exact ⟨rfl, rfl, fun h => absurd rfl h, rfl, rfl⟩
  · cases hp : env.parse (env.fetch docid).2 with
    | none =>
      rw [respond_parse_none env st docid hd hp]
      exact ⟨rfl, rfl, fun _ => rfl, rfl, rfl⟩
    | some parts =>
      rw [respond_parse_some env st docid parts hd hp]
      exact ⟨rfl, rfl, fun _ => rfl, rfl, rfl⟩

/-- Witness for the amended C3 at scenario B: after the request the
fetch parameter dict equals the old one with ids set to doc-1. -/
theorem C3_amended_witness :
    (respond envB st0 (some "doc-1")).state.get_params_doc
      = dictSet st0.get_params_doc "ids" "doc-1" :=
  (C3_amended_get_params_mutated envB st0 "doc-1").2.2.1 (by decide)

/-- Claim C4: the response of the endpoint does not depend on the
status of the import: replacing the submit behaviour of the world
changes nothing in the response; and whenever an import POST was made,
the endpoint returned the empty success response. -/
theorem C4_submit_failure_not_escalated (env : Env)
    (submit2 : String → Nat × String) (st : ModuleState)
    (tid : Option String) :
    (respond { env with submit := submit2 } st tid).response
      = (respond env st tid).response
    ∧ (∀ docid doc_html ann,
        Call.postDoc docid doc_html ann ∈ (respond env st tid).calls →
          (respond env st tid).response = some ()) := by
  constructor
  · cases tid with
    | none => rfl
    | some d =>
      by_cases hd : d = ""
      · subst hd; rfl
      · cases hp : env.parse (env.fetch d).2 with
        | none =>
          rw [respond_parse_none env st d hd hp,
              respond_parse_none { env with submit := submit2 } st d hd hp]
        | some parts =>
          rw [respond_parse_some env st d parts hd hp,
              respond_parse_some { env with submit := submit2 } st d parts hd hp]
  · intro docid doc_html ann h
    exact (postDoc_mem_calls env st tid docid doc_html ann h).1

/-- Witness for C4 at scenario B: a failing import (HTTP 400) leaves
the response identical to the succeeding one, and the response is the
empty success response. -/
theorem C4_witness :
    (respond { envB with submit := fun _ => (400, "Bad Request") } st0
        (some "doc-1")).response
      = (respond envB st0 (some "doc-1")).response
    ∧ (respond envB st0 (some "doc-1")).response = some () :=
  ⟨(C4_submit_failure_not_escalated envB (fun _ => (400, "Bad Request")) st0
      (some "doc-1")).1,
   (C4_submit_failure_not_escalated envB (fun _ => (400, "Bad Request")) st0
      (some "doc-1")).2 "doc-1" "HTMLB"
      { anncomplete := false, metas := [], relations := [],
        entities := assemble_entities st0.map_names_to_ids envB.nlp
          [{ id := "s1", text := textB }] } (by decide)⟩

/-- Claim C5: a trigger whose body has no tagtogID (absent or JSON
null, both decoded to none) returns the empty success response with
no outbound calls and unchanged module state. -/
theorem C5_no_id_no_work (env : Env) (st : ModuleState) :
    respond env st none
      = { response := some (), calls := [], state := st } := rfl

/-- Claim C10: a trigger whose tagtogID is present but falsy (the
empty string) behaves exactly like an absent id: same result, no
outbound calls, empty success response. -/
theorem C10_falsy_id_like_absent (env : Env) (st : ModuleState) :
    respond env st (some "") = respond env st none
    ∧ (respond env st (some "")).calls = []
    ∧ (respond env st (some "")).response = some () := ⟨rfl, rfl, rfl⟩

/-- Claim C8: for a truthy id whose fetched content parses, the posted
AnnotationDocument exists and its entities list is exactly the
concatenation, in part (segment) order, of the per-part entity lists
in recognizer output order: nothing is deduplicated, merged or
reordered. -/
theorem C8_entities_concat_in_order (env : Env) (st : ModuleState)
    (docid : String) (parts : List Segment) (hd : ¬ docid = "")
    (hp : env.parse (env.fetch docid).2 = some parts) :
    ∃ ann : AnnJson,
      (respond env st (some docid)).calls
        = [Call.getDoc docid (dictSet st.get_params_doc "ids" docid),
           Call.postDoc docid (env.fetch docid).2 ann]
      ∧ ann.entities
          = (parts.map (fun part =>
              get_entities st.map_names_to_ids (env.nlp part.text)
                pipeline part.id)).flatten := by
  refine ⟨{ anncomplete := false, metas := [], relations := [],
            entities := assemble_entities st.map_names_to_ids env.nlp parts },
          ?_, ?_⟩
  · rw [respond_parse_some env st docid parts hd hp]
  · exact assemble_entities_eq_join st.map_names_to_ids env.nlp parts

/-- Witness for C8 at a two-segment document: the entities of the
first segment precede those of the second. -/
theorem C8_witness :
    ∃ ann : AnnJson,
      (respond envD st0 (some "doc-2")).calls
        = [Call.getDoc "doc-2" (dictSet st0.get_params_doc "ids" "doc-2"),
           Call.postDoc "doc-2" (envD.fetch "doc-2").2 ann]
      ∧ ann.entities
          = (([{ id := "s1", text := "Alice" },
               { id := "s2", text := "Acme" }] : List Segment).map
              (fun part =>
                get_entities st0.map_names_to_ids (envD.nlp part.text)
                  pipeline part.id)).flatten :=
  C8_entities_concat_in_order envD st0 "doc-2"
    [{ id := "s1", text := "Alice" }, { id := "s2", text := "Acme" }]
    (by decide) rfl

/-- Claim C9: every posted AnnotationDocument has anncomplete false,
empty metas and relations, and each of its entities has empty fields,
empty normalizations, and the fixed confidence object: state
pre-added, who the list containing ml: followed by the pipeline name,
and probability 1. -/
theorem C9_constant_fields (env : Env) (st : ModuleState)
    (tid : Option String) (docid doc_html : String) (ann : AnnJson)
    (h : Call.postDoc docid doc_html ann ∈ (respond env st tid).calls) :
    ann.anncomplete = false ∧ ann.metas = [] ∧ ann.relations = []
    ∧ ∀ e, e ∈ ann.entities →
        e.fields = [] ∧ e.normalizations = []
        ∧ e.confidence
            = { state := "pre-added", who := ["ml:" ++ pipeline], prob := 1 } := by
  obtain ⟨-, d, parts, -, -, -, -, -, ha⟩ :=
    postDoc_mem_calls env st tid docid doc_html ann h
  subst ha
  refine ⟨rfl, rfl, rfl, ?_⟩
  intro e he
  obtain ⟨seg, -, he2⟩ := mem_assemble_entities st.map_names_to_ids env.nlp parts e he
  obtain ⟨-, hf, hn, hc, -⟩ :=
    mem_get_entities_constants st.map_names_to_ids (env.nlp seg.text)
      pipeline seg.id e he2
  exact ⟨hf, hn, hc⟩

/-- Witness for C9 at scenario B: the posted ann.json of scenario B
has the fixed constants, in particular at the PERSON entity. -/
theorem C9_witness :
    annB.anncomplete = false ∧ annB.metas = [] ∧ annB.relations = []
    ∧ (annAlice.fields = [] ∧ annAlice.normalizations = []
        ∧ annAlice.confidence
            = { state := "pre-added", who := ["ml:" ++ pipeline], prob := 1 }) :=
  have h := C9_constant_fields envB st0 (some "doc-1") "doc-1" "HTMLB" annB
    (by decide)
  ⟨h.1, h.2.1, h.2.2.1, h.2.2.2 annAlice (by decide)⟩
